import Mathlib

/-!
Shallow embedding of the SBMP session/endpoint layer.

The definitions below translate `src/library/sbmp_session.c`.  Machine
integers (`uint16_t`, `uint8_t`) are modelled as `Nat`, with explicit
`% 65536` (or masking) exactly where the C code can overflow or wrap.
The framing and datagram transmit layers (`sbmp_frm_*`, `sbmp_dg_start`)
are repository code that is not part of the given sources; they are
modelled from the specification, at datagram granularity: the endpoint
model keeps a trace `out` of the datagrams whose bytes went through the
transmit function.  Receive-side framing, the enable/disable flags and
the logging sink are not needed by any theorem below and are omitted.
-/

set_option maxRecDepth 8000

namespace SBMP

/-- Length of the payload sent with a handshake packet (`HSK_PAYLOAD_LEN`). -/
def HSK_PAYLOAD_LEN : Nat := 3

/-- Datagram header length: 2 B session, 1 B type (`DATAGRA_HEADER_LEN`). -/
def DATAGRA_HEADER_LEN : Nat := 3

/-- Modelled from the spec: reserved datagram type `HSK_START = 1`
(the header defining `SBMP_DG_HSK_START` is not among the sources). -/
def SBMP_DG_HSK_START : Nat := 1

/-- Modelled from the spec: reserved datagram type `HSK_ACCEPT = 2`. -/
def SBMP_DG_HSK_ACCEPT : Nat := 2

/-- Modelled from the spec: reserved datagram type `HSK_CONFLICT = 3`. -/
def SBMP_DG_HSK_CONFLICT : Nat := 3

/-- Checksum type tag 0 = none (`SBMP_CKSUM_NONE` in `sbmp.h`). -/
def SBMP_CKSUM_NONE : Nat := 0

/-- Modelled from the spec: checksum type tag 1 = XOR (`SBMP_CKSUM_XOR`;
its defining header is not among the sources, the spec fixes the tag). -/
def SBMP_CKSUM_XOR : Nat := 1

/-- Checksum type tag 32 = CRC-32 (`SBMP_CKSUM_CRC32` in `sbmp.h`). -/
def SBMP_CKSUM_CRC32 : Nat := 32

/-- The macro `U16_LSB(x) = x & 0xFF`. -/
def U16_LSB (x : Nat) : Nat := x &&& 0xFF

/-- The macro `U16_MSB(x) = (x >> 8) & 0xFF`. -/
def U16_MSB (x : Nat) : Nat := (x >>> 8) &&& 0xFF

/-- Handshake status (`SBMP_HSK_NOT_STARTED` … `SBMP_HSK_CONFLICT`). -/
inductive HskStatus where
  | NotStarted
  | AwaitReply
  | Success
  | Conflict
deriving DecidableEq, Repr

/-- A datagram whose bytes were pushed through the transmit function:
checksum type used, session, datagram type, user payload bytes. -/
structure OutDg where
  cksum : Nat
  session : Nat
  type : Nat
  payload : List Nat
deriving DecidableEq, Repr

/-- Modelled from the spec: the transmit side of the framing layer
(`sbmp_frame.c` is not among the sources).  `begin_frame` fails while a
frame is in progress; the transmitter returns to idle on the final
payload byte.  Only the transmit state is modelled. -/
structure Frm where
  tx_busy : Bool
  tx_cksum : Nat
  tx_session : Nat
  tx_type : Nat
  tx_remaining : Nat
  tx_acc : List Nat
deriving DecidableEq, Repr

/-- Modelled from the spec: `sbmp_frm_reset` re-initializes the framing
layer, discarding any frame in progress. -/
def frm_reset : Frm := ⟨false, 0, 0, 0, 0, []⟩

/-- A session listener slot: callback slot is modelled by the `used`
flag (`callback != NULL` in C). -/
structure Slot where
  session : Nat
  used : Bool
deriving DecidableEq, Repr

/-- The endpoint state (`SBMP_Endpoint`), together with the transmit
trace `out` standing for the bytes emitted through `tx_func`. -/
structure SBMP_Endpoint where
  origin : Bool
  next_session : Nat
  pref_cksum : Nat
  peer_pref_cksum : Nat
  buffer_size : Nat
  peer_buffer_size : Nat
  hsk_status : HskStatus
  hsk_session : Nat
  listeners : List Slot
  frm : Frm
  out : List OutDg
deriving DecidableEq, Repr

/-- A received datagram as produced by `sbmp_dg_parse`: session, type
and the user payload bytes.  `dg->length` is the payload length. -/
structure SBMP_Datagram where
  session : Nat
  type : Nat
  payload : List Nat
deriving DecidableEq, Repr

/-- The field `dg->length`: number of user payload bytes. -/
def SBMP_Datagram.length (dg : SBMP_Datagram) : Nat := dg.payload.length

/-- Modelled from the spec: `sbmp_dg_parse` — fails when the frame
payload is shorter than 3 bytes, else reads the little-endian session,
the type byte and the rest as payload. -/
def sbmp_dg_parse (buf : List Nat) : Option SBMP_Datagram :=
  if buf.length < 3 then none
  else some ⟨(buf.getD 0 0) ||| ((buf.getD 1 0) <<< 8), buf.getD 2 0, buf.drop 3⟩

/-- Function `sbmp_ep_reset`: discards all state information. -/
def sbmp_ep_reset (ep : SBMP_Endpoint) : SBMP_Endpoint :=
  { ep with
    next_session := 0
    origin := false
    hsk_session := 0
    hsk_status := HskStatus.NotStarted
    peer_buffer_size := 0xFFFF
    frm := frm_reset }

/-- Function `sbmp_ep_seed_session`: `ep->next_session = sesn & 0x7FFF`. -/
def sbmp_ep_seed_session (ep : SBMP_Endpoint) (sesn : Nat) : SBMP_Endpoint :=
  { ep with next_session := sesn &&& 0x7FFF }

/-- Function `sbmp_ep_set_origin`: set the origin bit. -/
def sbmp_ep_set_origin (endp : SBMP_Endpoint) (bit : Bool) : SBMP_Endpoint :=
  { endp with origin := bit }

/-- Function `next_session`: return the counter OR'd with the origin bit in
bit 15, then post-increment the `uint16_t` counter, wrapping it to 0
when the increment reaches 0x8000. -/
def next_session (ep : SBMP_Endpoint) : Nat × SBMP_Endpoint :=
  let sesn := ep.next_session
  let inc := (ep.next_session + 1) % 65536
  let ns := if inc = 0x8000 then 0 else inc
  (sesn ||| (if ep.origin then 0x8000 else 0), { ep with next_session := ns })

/-- Modelled from the spec: `sbmp_dg_start` asks the framing layer to
begin a frame of `length + 3` bytes (failing if a frame is already in
progress) and writes the 3-byte datagram header; when `length = 0` the
header's last byte is the final payload byte, so the frame completes
at once. -/
def sbmp_dg_start (ep : SBMP_Endpoint) (cksum sesn ty length : Nat) :
    Bool × SBMP_Endpoint :=
  if ep.frm.tx_busy then (false, ep)
  else if length = 0 then
    (true, { ep with out := ep.out ++ [⟨cksum, sesn, ty, []⟩] })
  else
    (true, { ep with frm := ⟨true, cksum, sesn, ty, length, []⟩ })

/-- Modelled from the spec: `sbmp_frm_send_byte` forwards one byte
through the transmit function, decrementing expected-remaining; on the
final payload byte the trailer is emitted and the transmitter goes
idle, which the model records by appending the completed datagram to
`out`. -/
def frm_send_byte (ep : SBMP_Endpoint) (b : Nat) : Bool × SBMP_Endpoint :=
  if ep.frm.tx_busy then
    let acc := ep.frm.tx_acc ++ [b]
    if ep.frm.tx_remaining ≤ 1 then
      (true, { ep with
        frm := frm_reset
        out := ep.out ++ [⟨ep.frm.tx_cksum, ep.frm.tx_session, ep.frm.tx_type, acc⟩] })
    else
      (true, { ep with frm := { ep.frm with tx_remaining := ep.frm.tx_remaining - 1, tx_acc := acc } })
  else (false, ep)

/-- Modelled from the spec: `sbmp_frm_send_buffer` forwards the bytes
one at a time, returning how many were sent. -/
def frm_send_buffer (ep : SBMP_Endpoint) : List Nat → Nat × SBMP_Endpoint
  | [] => (0, ep)
  | b :: rest =>
    let p := frm_send_byte ep b
    if p.1 then
      let q := frm_send_buffer p.2 rest
      (q.1 + 1, q.2)
    else (0, p.2)

/-- Function `sbmp_ep_start_response`: reject when `length` exceeds
`peer_buffer_size - DATAGRA_HEADER_LEN` (`uint16_t` subtraction), else
delegate to `sbmp_dg_start` with the peer's preferred checksum. -/
def sbmp_ep_start_response (ep : SBMP_Endpoint) (ty length sesn : Nat) :
    Bool × SBMP_Endpoint :=
  let peer_accepts := (ep.peer_buffer_size + 65536 - DATAGRA_HEADER_LEN) % 65536
  if length > peer_accepts then (false, ep)
  else sbmp_dg_start ep ep.peer_pref_cksum sesn ty length

/-- Function `sbmp_ep_start_session`: allocate a session via `next_session`,
start a response on it, and report the session on success (the C code
stores it through `sesn_ptr`). -/
def sbmp_ep_start_session (ep : SBMP_Endpoint) (ty length : Nat) :
    Bool × Nat × SBMP_Endpoint :=
  let p := next_session ep
  let q := sbmp_ep_start_response p.2 ty length p.1
  (q.1, p.1, q.2)

/-- Function `sbmp_ep_send_response`: start a response, then send `length` bytes
of `buffer` through the framing layer. -/
def sbmp_ep_send_response (ep : SBMP_Endpoint) (ty : Nat) (buffer : List Nat)
    (length sesn : Nat) : Bool × SBMP_Endpoint :=
  let p := sbmp_ep_start_response ep ty length sesn
  if p.1 then
    let q := frm_send_buffer p.2 (buffer.take length)
    (true, q.2)
  else (false, p.2)

/-- Function `sbmp_ep_send_message`: allocate a session, store it through the
session-out pointer (modelled as an `Option Nat` value), send, and on
failure restore the pointer's prior value. -/
def sbmp_ep_send_message (ep : SBMP_Endpoint) (ty : Nat) (buffer : List Nat)
    (length : Nat) (sesn_ptr : Option Nat) : Bool × Option Nat × SBMP_Endpoint :=
  let p := next_session ep
  let ptr1 := match sesn_ptr with
    | none => none
    | some _ => some p.1
  let q := sbmp_ep_send_response p.2 ty buffer length p.1
  if q.1 then (true, ptr1, q.2)
  else (false, sesn_ptr, q.2)

/-- Function `populate_hsk_buf`: `[pref_cksum, buf_size lo, buf_size hi]`. -/
def populate_hsk_buf (ep : SBMP_Endpoint) : List Nat :=
  [ep.pref_cksum, U16_LSB ep.buffer_size, U16_MSB ep.buffer_size]

/-- Function `parse_peer_hsk_buf`: read the peer's preferred checksum and buffer
size from the handshake payload; downgrade a CRC-32 preference to XOR
when the build lacks CRC-32 (`hasCrc32` models `SBMP_HAS_CRC32`). -/
def parse_peer_hsk_buf (hasCrc32 : Bool) (ep : SBMP_Endpoint) (buf : List Nat) :
    SBMP_Endpoint :=
  let p := buf.getD 0 0
  let pbs := (buf.getD 1 0) ||| ((buf.getD 2 0) <<< 8)
  let p1 := if p = SBMP_CKSUM_CRC32 ∧ hasCrc32 = false then SBMP_CKSUM_XOR else p
  { ep with peer_pref_cksum := p1, peer_buffer_size := pbs }

/-- Function `sbmp_ep_abort_handshake`: clear `hsk_session`, status NotStarted. -/
def sbmp_ep_abort_handshake (ep : SBMP_Endpoint) : SBMP_Endpoint :=
  { ep with hsk_session := 0, hsk_status := HskStatus.NotStarted }

/-- Where `handle_hsk_datagram` delivered a non-handshake datagram:
to the listener in slot `i`, or to the default rx handler; handshake
datagrams are consumed by the state machine. -/
inductive Delivery where
  | consumed
  | toListener (i : Nat)
  | toDefault
deriving DecidableEq, Repr

/-- The listener scan of `handle_hsk_datagram`: first slot in order
whose callback is set and whose session matches. -/
def findListenerIdx : List Slot → Nat → Option Nat
  | [], _ => none
  | sl :: rest, s =>
    if sl.used = true ∧ sl.session = s then some 0
    else (findListenerIdx rest s).map (· + 1)

/-- The endpoint state after the accept branch of `handle_hsk_datagram`
has set the origin and parsed the peer info (the C lines
`bool peer_origin = …` through `ep->hsk_status = SBMP_HSK_SUCCESS`),
before the HSK_ACCEPT response is sent. -/
def hsk_accept_state (hasCrc32 : Bool) (ep : SBMP_Endpoint)
    (dg : SBMP_Datagram) : SBMP_Endpoint :=
  { (if dg.length ≥ HSK_PAYLOAD_LEN
      then parse_peer_hsk_buf hasCrc32
        (sbmp_ep_set_origin ep (!(((dg.session &&& 0x8000) >>> 15) != 0)))
        dg.payload
      else sbmp_ep_set_origin ep (!(((dg.session &&& 0x8000) >>> 15) != 0)))
    with hsk_status := HskStatus.Success }

/-- The `hsk_start` arm of `handle_hsk_datagram`: conflict when already
awaiting a reply, else accept the request and answer HSK_ACCEPT. -/
def hsk_handle_start (hasCrc32 : Bool) (ep : SBMP_Endpoint)
    (dg : SBMP_Datagram) : SBMP_Endpoint × Delivery :=
  if ep.hsk_status = HskStatus.AwaitReply then
    -- conflict occured - we're already waiting for a reply
    ({ (sbmp_ep_send_response ep SBMP_DG_HSK_CONFLICT (populate_hsk_buf ep)
        HSK_PAYLOAD_LEN dg.session).2 with hsk_status := HskStatus.Conflict },
      Delivery.consumed)
  else
    -- we're idle, accept the request
    ((sbmp_ep_send_response (hsk_accept_state hasCrc32 ep dg)
        SBMP_DG_HSK_ACCEPT (populate_hsk_buf ep) HSK_PAYLOAD_LEN dg.session).2,
      Delivery.consumed)

/-- The `hsk_accept` arm of `handle_hsk_datagram`: ignored unless we
are awaiting a reply on exactly this session. -/
def hsk_handle_accept (hasCrc32 : Bool) (ep : SBMP_Endpoint)
    (dg : SBMP_Datagram) : SBMP_Endpoint × Delivery :=
  if ep.hsk_status ≠ HskStatus.AwaitReply ∨ ep.hsk_session ≠ dg.session then
    -- unexpected HSK accept, ignoring
    (ep, Delivery.consumed)
  else
    ({ (if dg.length ≥ HSK_PAYLOAD_LEN
        then parse_peer_hsk_buf hasCrc32 ep dg.payload else ep)
      with hsk_status := HskStatus.Success }, Delivery.consumed)

/-- The `hsk_conflict` arm of `handle_hsk_datagram`: ignored unless we
are awaiting a reply on exactly this session; acknowledging resets the
framing layer. -/
def hsk_handle_conflict (ep : SBMP_Endpoint) (dg : SBMP_Datagram) :
    SBMP_Endpoint × Delivery :=
  if ep.hsk_status ≠ HskStatus.AwaitReply ∨ ep.hsk_session ≠ dg.session then
    -- unexpected HSK conflict, ignoring
    (ep, Delivery.consumed)
  else
    ({ ep with frm := frm_reset, hsk_status := HskStatus.Conflict },
      Delivery.consumed)

/-- Function `handle_hsk_datagram`: process handshake datagrams and update the
handshake state machine; route other datagrams to the first matching
listener, or failing that to the default rx handler. -/
def handle_hsk_datagram (hasCrc32 : Bool) (ep : SBMP_Endpoint)
    (dg : SBMP_Datagram) : SBMP_Endpoint × Delivery :=
  if dg.type = SBMP_DG_HSK_START ∨ dg.type = SBMP_DG_HSK_ACCEPT
      ∨ dg.type = SBMP_DG_HSK_CONFLICT then
    if dg.type = SBMP_DG_HSK_START then hsk_handle_start hasCrc32 ep dg
    else if dg.type = SBMP_DG_HSK_ACCEPT then hsk_handle_accept hasCrc32 ep dg
    else hsk_handle_conflict ep dg
  else
    match findListenerIdx ep.listeners dg.session with
    | some i => (ep, Delivery.toListener i)
    | none => (ep, Delivery.toDefault)

/-- Function `sbmp_ep_add_listener`: place the entry into the first unused slot. -/
def sbmp_ep_add_listener (ep : SBMP_Endpoint) (session : Nat) :
    Bool × SBMP_Endpoint :=
  let rec place : List Slot → Option (List Slot)
    | [] => none
    | sl :: rest =>
      if sl.used = true then (place rest).map (sl :: ·)
      else some (⟨session, true⟩ :: rest)
  match place ep.listeners with
  | some l => (true, { ep with listeners := l })
  | none => (false, ep)

/-- An operation on the session-number allocator: a call to
`sbmp_ep_seed_session` or a call to `next_session`. -/
inductive SessionOp where
  | seed (s : Nat)
  | next
deriving DecidableEq, Repr

/-- Run a sequence of allocator operations on an endpoint, collecting
the session numbers returned by the `next_session` calls. -/
def runOps : SBMP_Endpoint → List SessionOp → SBMP_Endpoint × List Nat
  | ep, [] => (ep, [])
  | ep, SessionOp.seed s :: rest => runOps (sbmp_ep_seed_session ep s) rest
  | ep, SessionOp.next :: rest =>
    let p := next_session ep
    let q := runOps p.2 rest
    (q.1, p.1 :: q.2)

/-- A freshly initialized endpoint as `sbmp_ep_init` + `sbmp_ep_reset`
leave it (XOR build, buffer size 256), used as concrete input for
witnesses. -/
def mkEp : SBMP_Endpoint :=
  ⟨false, 0, SBMP_CKSUM_XOR, SBMP_CKSUM_XOR, 256, 0xFFFF,
    HskStatus.NotStarted, 0, [], frm_reset, []⟩

/-! Helper lemmas -/

/-- The C expression `(s & 0x8000) >> 15`, read as a boolean, is bit 15
of `s`. -/
theorem band_8000_shiftRight_eq (s : Nat) :
    (((s &&& 0x8000) >>> 15) != 0) = s.testBit 15 := by
  have h : s &&& 0x8000 = (s.testBit 15).toNat * 2 ^ 15 := by
    simpa using Nat.and_two_pow s 15
  rw [h]
  cases hb : s.testBit 15 <;> simp [Nat.shiftRight_eq_div_pow]

/-- Setting bit 15 of a 15-bit value by OR does just that. -/
theorem or_origin_testBit (s : Nat) (o : Bool) (h : s < 0x8000) :
    Nat.testBit (s ||| (if o then 0x8000 else 0)) 15 = o := by
  have hs : s.testBit 15 = false := Nat.testBit_lt_two_pow (by simpa using h)
  cases o <;> simp [Nat.testBit_or, hs]
  decide

/-- Sending one byte touches only the framing state and the transmit
trace. -/
theorem frm_send_byte_core (ep : SBMP_Endpoint) (b : Nat) :
    ((frm_send_byte ep b).2).origin = ep.origin ∧
    ((frm_send_byte ep b).2).peer_pref_cksum = ep.peer_pref_cksum ∧
    ((frm_send_byte ep b).2).peer_buffer_size = ep.peer_buffer_size ∧
    ((frm_send_byte ep b).2).hsk_status = ep.hsk_status ∧
    ((frm_send_byte ep b).2).hsk_session = ep.hsk_session := by
  unfold frm_send_byte
  split
  · split <;> simp
  · simp

/-- Sending a buffer touches only the framing state and the transmit
trace. -/
theorem frm_send_buffer_core (bs : List Nat) : ∀ ep : SBMP_Endpoint,
    ((frm_send_buffer ep bs).2).origin = ep.origin ∧
    ((frm_send_buffer ep bs).2).peer_pref_cksum = ep.peer_pref_cksum ∧
    ((frm_send_buffer ep bs).2).peer_buffer_size = ep.peer_buffer_size ∧
    ((frm_send_buffer ep bs).2).hsk_status = ep.hsk_status ∧
    ((frm_send_buffer ep bs).2).hsk_session = ep.hsk_session := by
  induction bs with
  | nil => intro ep; simp [frm_send_buffer]
  | cons b rest ih =>
    intro ep
    have hb := frm_send_byte_core ep b
    have hr := ih (frm_send_byte ep b).2
    unfold frm_send_buffer
    dsimp only
    split
    · exact ⟨hr.1.trans hb.1, hr.2.1.trans hb.2.1, hr.2.2.1.trans hb.2.2.1,
        hr.2.2.2.1.trans hb.2.2.2.1, hr.2.2.2.2.trans hb.2.2.2.2⟩
    · exact hb

/-- Sending via `sbmp_ep_send_response` touches only the framing state and the
transmit trace, whatever its outcome. -/
theorem sbmp_ep_send_response_core (ep : SBMP_Endpoint) (ty : Nat)
    (buffer : List Nat) (length sesn : Nat) :
    ((sbmp_ep_send_response ep ty buffer length sesn).2).origin = ep.origin ∧
    ((sbmp_ep_send_response ep ty buffer length sesn).2).peer_pref_cksum = ep.peer_pref_cksum ∧
    ((sbmp_ep_send_response ep ty buffer length sesn).2).peer_buffer_size = ep.peer_buffer_size ∧
    ((sbmp_ep_send_response ep ty buffer length sesn).2).hsk_status = ep.hsk_status ∧
    ((sbmp_ep_send_response ep ty buffer length sesn).2).hsk_session = ep.hsk_session := by
  have hstart : ((sbmp_ep_start_response ep ty length sesn).2).origin = ep.origin ∧
      ((sbmp_ep_start_response ep ty length sesn).2).peer_pref_cksum = ep.peer_pref_cksum ∧
      ((sbmp_ep_start_response ep ty length sesn).2).peer_buffer_size = ep.peer_buffer_size ∧
      ((sbmp_ep_start_response ep ty length sesn).2).hsk_status = ep.hsk_status ∧
      ((sbmp_ep_start_response ep ty length sesn).2).hsk_session = ep.hsk_session := by
    unfold sbmp_ep_start_response sbmp_dg_start
    dsimp only
    split
    · simp
    · split
      · simp
      · split <;> simp
  have hbuf := frm_send_buffer_core (buffer.take length)
    (sbmp_ep_start_response ep ty length sesn).2
  unfold sbmp_ep_send_response
  dsimp only
  split
  · exact ⟨hbuf.1.trans hstart.1, hbuf.2.1.trans hstart.2.1,
      hbuf.2.2.1.trans hstart.2.2.1, hbuf.2.2.2.1.trans hstart.2.2.2.1,
      hbuf.2.2.2.2.trans hstart.2.2.2.2⟩
  · exact hstart

/-- Successful whole-datagram send: with an idle transmitter and a peer
buffer that accepts at least 3 bytes, sending a 3-byte payload emits
exactly one datagram with the peer's preferred checksum. -/
theorem send_response_three (ep : SBMP_Endpoint) (ty sesn a b c : Nat)
    (hbusy : ep.frm.tx_busy = false)
    (hlo : 6 ≤ ep.peer_buffer_size) (hhi : ep.peer_buffer_size ≤ 65535) :
    sbmp_ep_send_response ep ty [a, b, c] 3 sesn =
      (true, { ep with
        frm := frm_reset
        out := ep.out ++ [⟨ep.peer_pref_cksum, sesn, ty, [a, b, c]⟩] }) := by
  have h1 : ¬ ((ep.peer_buffer_size + 65536 - DATAGRA_HEADER_LEN) % 65536 < 3) := by
    unfold DATAGRA_HEADER_LEN
    omega
  simp [sbmp_ep_send_response, sbmp_ep_start_response, sbmp_dg_start, h1, hbusy,
    frm_send_buffer, frm_send_byte, frm_reset]

/-- Lemma `send_response_three` specialized to a handshake-info payload built
from a (possibly different) endpoint `ep0`. -/
theorem send_response_hsk (ep ep0 : SBMP_Endpoint) (ty sesn : Nat)
    (hbusy : ep.frm.tx_busy = false)
    (hlo : 6 ≤ ep.peer_buffer_size) (hhi : ep.peer_buffer_size ≤ 65535) :
    sbmp_ep_send_response ep ty (populate_hsk_buf ep0) HSK_PAYLOAD_LEN sesn =
      (true, { ep with
        frm := frm_reset
        out := ep.out ++ [⟨ep.peer_pref_cksum, sesn, ty, populate_hsk_buf ep0⟩] }) := by
  have h := send_response_three ep ty sesn ep0.pref_cksum
    (U16_LSB ep0.buffer_size) (U16_MSB ep0.buffer_size) hbusy hlo hhi
  simpa [populate_hsk_buf, HSK_PAYLOAD_LEN] using h

/-- On an HSK_START datagram the dispatcher runs the `hsk_start` arm. -/
theorem handle_eq_start (hasCrc32 : Bool) (ep : SBMP_Endpoint)
    (dg : SBMP_Datagram) (hty : dg.type = SBMP_DG_HSK_START) :
    handle_hsk_datagram hasCrc32 ep dg = hsk_handle_start hasCrc32 ep dg := by
  unfold handle_hsk_datagram
  rw [if_pos (Or.inl hty), if_pos hty]

/-- On an HSK_ACCEPT datagram the dispatcher runs the `hsk_accept` arm. -/
theorem handle_eq_accept (hasCrc32 : Bool) (ep : SBMP_Endpoint)
    (dg : SBMP_Datagram) (hty : dg.type = SBMP_DG_HSK_ACCEPT) :
    handle_hsk_datagram hasCrc32 ep dg = hsk_handle_accept hasCrc32 ep dg := by
  unfold handle_hsk_datagram
  rw [if_pos (Or.inr (Or.inl hty)), if_neg (by rw [hty]; decide), if_pos hty]

/-- On an HSK_CONFLICT datagram the dispatcher runs the `hsk_conflict`
arm. -/
theorem handle_eq_conflict (hasCrc32 : Bool) (ep : SBMP_Endpoint)
    (dg : SBMP_Datagram) (hty : dg.type = SBMP_DG_HSK_CONFLICT) :
    handle_hsk_datagram hasCrc32 ep dg = hsk_handle_conflict ep dg := by
  unfold handle_hsk_datagram
  rw [if_pos (Or.inr (Or.inr hty)), if_neg (by rw [hty]; decide),
    if_neg (by rw [hty]; decide)]

/-- The fields of the accept-branch intermediate state. -/
theorem hsk_accept_state_fields (hasCrc32 : Bool) (ep : SBMP_Endpoint)
    (dg : SBMP_Datagram) :
    (hsk_accept_state hasCrc32 ep dg).hsk_status = HskStatus.Success ∧
    (hsk_accept_state hasCrc32 ep dg).origin = !(Nat.testBit dg.session 15) ∧
    (hsk_accept_state hasCrc32 ep dg).frm = ep.frm ∧
    (hsk_accept_state hasCrc32 ep dg).out = ep.out ∧
    (hsk_accept_state hasCrc32 ep dg).hsk_session = ep.hsk_session ∧
    (hsk_accept_state hasCrc32 ep dg).peer_buffer_size =
      (if 3 ≤ dg.payload.length
        then (dg.payload.getD 1 0) ||| ((dg.payload.getD 2 0) <<< 8)
        else ep.peer_buffer_size) ∧
    (hsk_accept_state hasCrc32 ep dg).peer_pref_cksum =
      (if 3 ≤ dg.payload.length
        then (if dg.payload.getD 0 0 = SBMP_CKSUM_CRC32 ∧ hasCrc32 = false
          then SBMP_CKSUM_XOR else dg.payload.getD 0 0)
        else ep.peer_pref_cksum) := by
  unfold hsk_accept_state SBMP_Datagram.length HSK_PAYLOAD_LEN
  rw [band_8000_shiftRight_eq]
  by_cases hl : 3 ≤ dg.payload.length
  · rw [if_pos (show dg.payload.length ≥ 3 from hl), if_pos hl, if_pos hl]
    simp [parse_peer_hsk_buf, sbmp_ep_set_origin]
  · rw [if_neg (show ¬ dg.payload.length ≥ 3 from hl), if_neg hl, if_neg hl]
    simp [sbmp_ep_set_origin]

/-- The accept branch of the start arm, for any non-AwaitReply status:
origin flipped, payload parsed when long enough, HSK_ACCEPT emitted on
the sender's session, status Success. -/
theorem hsk_start_accepts (hasCrc32 : Bool) (ep : SBMP_Endpoint)
    (dg : SBMP_Datagram)
    (hne : ep.hsk_status ≠ HskStatus.AwaitReply) (hty : dg.type = SBMP_DG_HSK_START)
    (hbusy : ep.frm.tx_busy = false)
    (hlo : 6 ≤ (hsk_accept_state hasCrc32 ep dg).peer_buffer_size)
    (hhi : (hsk_accept_state hasCrc32 ep dg).peer_buffer_size ≤ 65535) :
    ((handle_hsk_datagram hasCrc32 ep dg).1.hsk_status = HskStatus.Success) ∧
    ((handle_hsk_datagram hasCrc32 ep dg).1.origin = !(Nat.testBit dg.session 15)) ∧
    (3 ≤ dg.payload.length →
      (handle_hsk_datagram hasCrc32 ep dg).1.peer_buffer_size =
        (dg.payload.getD 1 0) ||| ((dg.payload.getD 2 0) <<< 8)) ∧
    ((handle_hsk_datagram hasCrc32 ep dg).1.out = ep.out ++
      [⟨(hsk_accept_state hasCrc32 ep dg).peer_pref_cksum, dg.session,
        SBMP_DG_HSK_ACCEPT, populate_hsk_buf ep⟩]) ∧
    ((handle_hsk_datagram hasCrc32 ep dg).2 = Delivery.consumed) := by
  have hfs := hsk_accept_state_fields hasCrc32 ep dg
  have hsend := send_response_hsk (hsk_accept_state hasCrc32 ep dg) ep
    SBMP_DG_HSK_ACCEPT dg.session (by rw [hfs.2.2.1]; exact hbusy) hlo hhi
  rw [handle_eq_start hasCrc32 ep dg hty]
  unfold hsk_handle_start
  rw [if_neg hne, hsend]
  refine ⟨by simpa using hfs.1, by simpa using hfs.2.1, fun hl => ?_,
    by simp [hfs.2.2.2.1], rfl⟩
  simp [hfs.2.2.2.2.2.1, hl]

/-- C1: an endpoint whose handshake status is NotStarted, on receiving
an HSK_START datagram with session S', sets its origin bit to the
complement of bit 15 of S', parses the peer's handshake payload when it
is at least 3 bytes, sends an HSK_ACCEPT response on session S' (here
with an idle transmitter and a roomy peer buffer), and transitions its
handshake status to Success. -/
theorem c1_not_started_hsk_start (hasCrc32 : Bool) (ep : SBMP_Endpoint)
    (dg : SBMP_Datagram)
    (hst : ep.hsk_status = HskStatus.NotStarted) (hty : dg.type = SBMP_DG_HSK_START)
    (hbusy : ep.frm.tx_busy = false)
    (hlo : 6 ≤ (hsk_accept_state hasCrc32 ep dg).peer_buffer_size)
    (hhi : (hsk_accept_state hasCrc32 ep dg).peer_buffer_size ≤ 65535) :
    ((handle_hsk_datagram hasCrc32 ep dg).1.hsk_status = HskStatus.Success) ∧
    ((handle_hsk_datagram hasCrc32 ep dg).1.origin = !(Nat.testBit dg.session 15)) ∧
    (3 ≤ dg.payload.length →
      (handle_hsk_datagram hasCrc32 ep dg).1.peer_buffer_size =
        (dg.payload.getD 1 0) ||| ((dg.payload.getD 2 0) <<< 8)) ∧
    ((handle_hsk_datagram hasCrc32 ep dg).1.out = ep.out ++
      [⟨(hsk_accept_state hasCrc32 ep dg).peer_pref_cksum, dg.session,
        SBMP_DG_HSK_ACCEPT, populate_hsk_buf ep⟩]) ∧
    ((handle_hsk_datagram hasCrc32 ep dg).2 = Delivery.consumed) :=
  hsk_start_accepts hasCrc32 ep dg (by rw [hst]; decide) hty hbusy hlo hhi

/-- C1 witness: a freshly initialized endpoint accepting a concrete
HSK_START on session 0x8003 carrying peer info `[1, 16, 0]`. -/
theorem c1_witness :
    ((handle_hsk_datagram true mkEp ⟨0x8003, 1, [1, 16, 0]⟩).1.hsk_status
        = HskStatus.Success) ∧
    ((handle_hsk_datagram true mkEp ⟨0x8003, 1, [1, 16, 0]⟩).1.origin
        = !(Nat.testBit 0x8003 15)) ∧
    (3 ≤ [1, 16, 0].length →
      (handle_hsk_datagram true mkEp ⟨0x8003, 1, [1, 16, 0]⟩).1.peer_buffer_size
        = 16 ||| (0 <<< 8)) ∧
    ((handle_hsk_datagram true mkEp ⟨0x8003, 1, [1, 16, 0]⟩).1.out = mkEp.out ++
      [⟨(hsk_accept_state true mkEp ⟨0x8003, 1, [1, 16, 0]⟩).peer_pref_cksum,
        0x8003, SBMP_DG_HSK_ACCEPT, populate_hsk_buf mkEp⟩]) ∧
    ((handle_hsk_datagram true mkEp ⟨0x8003, 1, [1, 16, 0]⟩).2
        = Delivery.consumed) :=
  c1_not_started_hsk_start true mkEp ⟨0x8003, 1, [1, 16, 0]⟩
    (by decide) (by decide) (by decide) (by decide) (by decide)

/-- C10: an endpoint whose handshake status is Success or Conflict
treats an incoming HSK_START exactly as in the NotStarted case: origin
overwritten with the complement of the sender's origin bit, payload
re-parsed, HSK_ACCEPT sent on the sender's session, status Success. -/
theorem c10_rearbitration_hsk_start (hasCrc32 : Bool) (ep : SBMP_Endpoint)
    (dg : SBMP_Datagram)
    (hst : ep.hsk_status = HskStatus.Success ∨ ep.hsk_status = HskStatus.Conflict)
    (hty : dg.type = SBMP_DG_HSK_START)
    (hbusy : ep.frm.tx_busy = false)
    (hlo : 6 ≤ (hsk_accept_state hasCrc32 ep dg).peer_buffer_size)
    (hhi : (hsk_accept_state hasCrc32 ep dg).peer_buffer_size ≤ 65535) :
    ((handle_hsk_datagram hasCrc32 ep dg).1.hsk_status = HskStatus.Success) ∧
    ((handle_hsk_datagram hasCrc32 ep dg).1.origin = !(Nat.testBit dg.session 15)) ∧
    (3 ≤ dg.payload.length →
      (handle_hsk_datagram hasCrc32 ep dg).1.peer_buffer_size =
        (dg.payload.getD 1 0) ||| ((dg.payload.getD 2 0) <<< 8)) ∧
    ((handle_hsk_datagram hasCrc32 ep dg).1.out = ep.out ++
      [⟨(hsk_accept_state hasCrc32 ep dg).peer_pref_cksum, dg.session,
        SBMP_DG_HSK_ACCEPT, populate_hsk_buf ep⟩]) ∧
    ((handle_hsk_datagram hasCrc32 ep dg).2 = Delivery.consumed) :=
  hsk_start_accepts hasCrc32 ep dg
    (by rcases hst with h | h <;> rw [h] <;> decide) hty hbusy hlo hhi

/-- C10 witness: an endpoint that already completed a handshake
(status Success, origin true) re-accepts a concrete HSK_START on
session 3 and flips its origin back. -/
theorem c10_witness :
    ((handle_hsk_datagram true
        { mkEp with hsk_status := HskStatus.Success, origin := true }
        ⟨3, 1, [1, 16, 0]⟩).1.hsk_status = HskStatus.Success) ∧
    ((handle_hsk_datagram true
        { mkEp with hsk_status := HskStatus.Success, origin := true }
        ⟨3, 1, [1, 16, 0]⟩).1.origin = !(Nat.testBit 3 15)) ∧
    (3 ≤ [1, 16, 0].length →
      (handle_hsk_datagram true
        { mkEp with hsk_status := HskStatus.Success, origin := true }
        ⟨3, 1, [1, 16, 0]⟩).1.peer_buffer_size = 16 ||| (0 <<< 8)) ∧
    ((handle_hsk_datagram true
        { mkEp with hsk_status := HskStatus.Success, origin := true }
        ⟨3, 1, [1, 16, 0]⟩).1.out =
      ({ mkEp with hsk_status := HskStatus.Success, origin := true } :
        SBMP_Endpoint).out ++
      [⟨(hsk_accept_state true
          { mkEp with hsk_status := HskStatus.Success, origin := true }
          ⟨3, 1, [1, 16, 0]⟩).peer_pref_cksum,
        3, SBMP_DG_HSK_ACCEPT,
        populate_hsk_buf
          { mkEp with hsk_status := HskStatus.Success, origin := true }⟩]) ∧
    ((handle_hsk_datagram true
        { mkEp with hsk_status := HskStatus.Success, origin := true }
        ⟨3, 1, [1, 16, 0]⟩).2 = Delivery.consumed) :=
  c10_rearbitration_hsk_start true
    { mkEp with hsk_status := HskStatus.Success, origin := true }
    ⟨3, 1, [1, 16, 0]⟩
    (Or.inl (by decide)) (by decide) (by decide) (by decide) (by decide)

/-- C2: an endpoint in AwaitReply receiving an HSK_START with session
S' sends an HSK_CONFLICT response on S' (here with an idle transmitter
and a roomy peer buffer), transitions to Conflict, and leaves its
`hsk_session` unchanged. -/
theorem c2_awaitreply_hsk_start (hasCrc32 : Bool) (ep : SBMP_Endpoint)
    (dg : SBMP_Datagram)
    (hst : ep.hsk_status = HskStatus.AwaitReply) (hty : dg.type = SBMP_DG_HSK_START)
    (hbusy : ep.frm.tx_busy = false)
    (hlo : 6 ≤ ep.peer_buffer_size) (hhi : ep.peer_buffer_size ≤ 65535) :
    ((handle_hsk_datagram hasCrc32 ep dg).1.hsk_status = HskStatus.Conflict) ∧
    ((handle_hsk_datagram hasCrc32 ep dg).1.hsk_session = ep.hsk_session) ∧
    ((handle_hsk_datagram hasCrc32 ep dg).1.out = ep.out ++
      [⟨ep.peer_pref_cksum, dg.session, SBMP_DG_HSK_CONFLICT,
        populate_hsk_buf ep⟩]) ∧
    ((handle_hsk_datagram hasCrc32 ep dg).2 = Delivery.consumed) := by
  have hsend := send_response_hsk ep ep SBMP_DG_HSK_CONFLICT dg.session hbusy hlo hhi
  rw [handle_eq_start hasCrc32 ep dg hty]
  unfold hsk_handle_start
  rw [if_pos hst, hsend]
  simp

/-- C2 witness: two endpoints started a handshake simultaneously; this
one (AwaitReply on its session 0) receives the peer's HSK_START on
session 0x8000 and answers HSK_CONFLICT on 0x8000. -/
theorem c2_witness :
    ((handle_hsk_datagram true
        { mkEp with hsk_status := HskStatus.AwaitReply, hsk_session := 0 }
        ⟨0x8000, 1, [1, 0, 1]⟩).1.hsk_status = HskStatus.Conflict) ∧
    ((handle_hsk_datagram true
        { mkEp with hsk_status := HskStatus.AwaitReply, hsk_session := 0 }
        ⟨0x8000, 1, [1, 0, 1]⟩).1.hsk_session =
      ({ mkEp with hsk_status := HskStatus.AwaitReply, hsk_session := 0 } :
        SBMP_Endpoint).hsk_session) ∧
    ((handle_hsk_datagram true
        { mkEp with hsk_status := HskStatus.AwaitReply, hsk_session := 0 }
        ⟨0x8000, 1, [1, 0, 1]⟩).1.out =
      ({ mkEp with hsk_status := HskStatus.AwaitReply, hsk_session := 0 } :
        SBMP_Endpoint).out ++
      [⟨({ mkEp with hsk_status := HskStatus.AwaitReply, hsk_session := 0 } :
          SBMP_Endpoint).peer_pref_cksum, 0x8000, SBMP_DG_HSK_CONFLICT,
        populate_hsk_buf
          { mkEp with hsk_status := HskStatus.AwaitReply, hsk_session := 0 }⟩]) ∧
    ((handle_hsk_datagram true
        { mkEp with hsk_status := HskStatus.AwaitReply, hsk_session := 0 }
        ⟨0x8000, 1, [1, 0, 1]⟩).2 = Delivery.consumed) :=
  c2_awaitreply_hsk_start true
    { mkEp with hsk_status := HskStatus.AwaitReply, hsk_session := 0 }
    ⟨0x8000, 1, [1, 0, 1]⟩
    (by decide) (by decide) (by decide) (by decide) (by decide)

/-- C3 counterexample: in AwaitReply with `hsk_session = 5`, receiving
HSK_CONFLICT on session 5 does NOT clear `hsk_session` (the claim says
it is cleared): it stays 5. -/
theorem c3_counterexample :
    ({ mkEp with hsk_status := HskStatus.AwaitReply, hsk_session := 5 } :
      SBMP_Endpoint).hsk_status = HskStatus.AwaitReply ∧
    (⟨5, 3, []⟩ : SBMP_Datagram).type = SBMP_DG_HSK_CONFLICT ∧
    ({ mkEp with hsk_status := HskStatus.AwaitReply, hsk_session := 5 } :
      SBMP_Endpoint).hsk_session = (⟨5, 3, []⟩ : SBMP_Datagram).session ∧
    (handle_hsk_datagram true
      { mkEp with hsk_status := HskStatus.AwaitReply, hsk_session := 5 }
      ⟨5, 3, []⟩).1.hsk_session = 5 ∧
    (handle_hsk_datagram true
      { mkEp with hsk_status := HskStatus.AwaitReply, hsk_session := 5 }
      ⟨5, 3, []⟩).1.hsk_session ≠ 0 := by
  decide

/-- C3 (amended): an endpoint in AwaitReply, receiving an HSK_CONFLICT
whose session equals `hsk_session`, resets its framing layer and
transitions to Conflict, leaving `hsk_session` unchanged (the code does
not clear it). -/
theorem c3_awaitreply_hsk_conflict (hasCrc32 : Bool) (ep : SBMP_Endpoint)
    (dg : SBMP_Datagram)
    (hst : ep.hsk_status = HskStatus.AwaitReply)
    (hty : dg.type = SBMP_DG_HSK_CONFLICT)
    (hsesn : ep.hsk_session = dg.session) :
    ((handle_hsk_datagram hasCrc32 ep dg).1.frm = frm_reset) ∧
    ((handle_hsk_datagram hasCrc32 ep dg).1.hsk_status = HskStatus.Conflict) ∧
    ((handle_hsk_datagram hasCrc32 ep dg).1.hsk_session = ep.hsk_session) ∧
    ((handle_hsk_datagram hasCrc32 ep dg).1.out = ep.out) ∧
    ((handle_hsk_datagram hasCrc32 ep dg).2 = Delivery.consumed) := by
  rw [handle_eq_conflict hasCrc32 ep dg hty]
  unfold hsk_handle_conflict
  rw [if_neg (by simp [hst, hsesn])]
  simp

/-- C3 witness: the amended claim at the concrete counterexample
input. -/
theorem c3_witness :
    ((handle_hsk_datagram true
      { mkEp with hsk_status := HskStatus.AwaitReply, hsk_session := 5 }
      ⟨5, 3, []⟩).1.frm = frm_reset) ∧
    ((handle_hsk_datagram true
      { mkEp with hsk_status := HskStatus.AwaitReply, hsk_session := 5 }
      ⟨5, 3, []⟩).1.hsk_status = HskStatus.Conflict) ∧
    ((handle_hsk_datagram true
      { mkEp with hsk_status := HskStatus.AwaitReply, hsk_session := 5 }
      ⟨5, 3, []⟩).1.hsk_session =
      ({ mkEp with hsk_status := HskStatus.AwaitReply, hsk_session := 5 } :
        SBMP_Endpoint).hsk_session) ∧
    ((handle_hsk_datagram true
      { mkEp with hsk_status := HskStatus.AwaitReply, hsk_session := 5 }
      ⟨5, 3, []⟩).1.out =
      ({ mkEp with hsk_status := HskStatus.AwaitReply, hsk_session := 5 } :
        SBMP_Endpoint).out) ∧
    ((handle_hsk_datagram true
      { mkEp with hsk_status := HskStatus.AwaitReply, hsk_session := 5 }
      ⟨5, 3, []⟩).2 = Delivery.consumed) :=
  c3_awaitreply_hsk_conflict true
    { mkEp with hsk_status := HskStatus.AwaitReply, hsk_session := 5 }
    ⟨5, 3, []⟩ (by decide) (by decide) (by decide)

/-- C4: `next_session` returns the current counter OR'd with
`origin << 15` and post-increments the counter, wrapping to 0 when it
would pass 0x7FFF; bit 15 of the returned value is always the origin
bit, so a wrap never changes it. -/
theorem c4_next_session (ep : SBMP_Endpoint) (h : ep.next_session < 0x8000) :
    ((next_session ep).1 =
      (ep.next_session ||| (if ep.origin then 0x8000 else 0))) ∧
    (((next_session ep).2).next_session =
      (if ep.next_session = 0x7FFF then 0 else ep.next_session + 1)) ∧
    (Nat.testBit (next_session ep).1 15 = ep.origin) := by
  refine ⟨rfl, ?_, or_origin_testBit ep.next_session ep.origin h⟩
  have h1 : (ep.next_session + 1) % 65536 = ep.next_session + 1 :=
    Nat.mod_eq_of_lt (by omega)
  unfold next_session
  dsimp only
  rw [h1]
  by_cases hw : ep.next_session = 0x7FFF
  · rw [if_pos (by omega), if_pos hw]
  · rw [if_neg (by omega), if_neg hw]

/-- C4 witness: a fresh endpoint at counter 0 and one at the wrap
point 0x7FFF. -/
theorem c4_witness :
    (((next_session { mkEp with next_session := 0x7FFF }).1 =
      (0x7FFF ||| (if ({ mkEp with next_session := 0x7FFF } :
        SBMP_Endpoint).origin then 0x8000 else 0))) ∧
    (((next_session { mkEp with next_session := 0x7FFF }).2).next_session =
      (if (0x7FFF : Nat) = 0x7FFF then 0 else 0x7FFF + 1)) ∧
    (Nat.testBit (next_session { mkEp with next_session := 0x7FFF }).1 15 =
      ({ mkEp with next_session := 0x7FFF } : SBMP_Endpoint).origin)) :=
  c4_next_session { mkEp with next_session := 0x7FFF } (by decide)

theorem next_session_bound (ep : SBMP_Endpoint) (h : ep.next_session < 0x8000) :
    ((next_session ep).2).next_session < 0x8000 := by
  unfold next_session
  dsimp only
  split <;> omega

/-- Every session number output along a run of seed/next operations
carries the endpoint's origin in bit 15. -/
theorem runOps_mem_testBit (ops : List SessionOp) : ∀ (ep : SBMP_Endpoint),
    ep.next_session < 0x8000 →
    ∀ s ∈ (runOps ep ops).2, Nat.testBit s 15 = ep.origin := by
  induction ops with
  | nil => intro ep _ s hs; simp [runOps] at hs
  | cons op rest ih =>
    intro ep hb s hs
    cases op with
    | seed v =>
      rw [show runOps ep (SessionOp.seed v :: rest)
          = runOps (sbmp_ep_seed_session ep v) rest from rfl] at hs
      have hbv : (sbmp_ep_seed_session ep v).next_session < 0x8000 := by
        unfold sbmp_ep_seed_session
        dsimp only
        have hv := Nat.and_le_right (n := v) (m := 0x7FFF)
        omega
      have hres := ih (sbmp_ep_seed_session ep v) hbv s hs
      simpa [sbmp_ep_seed_session] using hres
    | next =>
      rw [show runOps ep (SessionOp.next :: rest)
          = ((runOps (next_session ep).2 rest).1,
             (next_session ep).1 :: (runOps (next_session ep).2 rest).2)
          from rfl] at hs
      rcases List.mem_cons.mp hs with rfl | hs2
      · exact or_origin_testBit ep.next_session ep.origin hb
      · have hres := ih (next_session ep).2 (next_session_bound ep hb) s hs2
        simpa [next_session] using hres

/-- C5: with complementary origin bits (as arbitration guarantees after
a successful handshake) and 15-bit counters (as seeding and wrapping
maintain), the two endpoints' session numbers always differ in
bit 15, whatever interleaving of seeding and allocation each runs. -/
theorem c5_session_space_disjoint (e1 e2 : SBMP_Endpoint)
    (ops1 ops2 : List SessionOp)
    (ho : e1.origin ≠ e2.origin)
    (h1 : e1.next_session < 0x8000) (h2 : e2.next_session < 0x8000) :
    ∀ s1 ∈ (runOps e1 ops1).2, ∀ s2 ∈ (runOps e2 ops2).2,
      Nat.testBit s1 15 ≠ Nat.testBit s2 15 := by
  intro s1 hs1 s2 hs2
  rw [runOps_mem_testBit ops1 e1 h1 s1 hs1,
    runOps_mem_testBit ops2 e2 h2 s2 hs2]
  exact ho

/-- C5 witness: origin-0 endpoint allocating 0 versus origin-1 endpoint
allocating 0x8000 after a seed. -/
theorem c5_witness : Nat.testBit 0 15 ≠ Nat.testBit 0x8000 15 :=
  c5_session_space_disjoint mkEp { mkEp with origin := true }
    [SessionOp.next] [SessionOp.seed 0x8000, SessionOp.next]
    (by decide) (by decide) (by decide)
    0 (by decide) 0x8000 (by decide)

/-- C6: `sbmp_ep_send_message` is transactional in its (non-NULL)
session-out pointer: on failure the stored value is restored to its
prior value, on success it holds the newly allocated session number. -/
theorem c6_send_message_transactional (ep : SBMP_Endpoint) (ty : Nat)
    (buffer : List Nat) (length s0 : Nat) :
    ((sbmp_ep_send_message ep ty buffer length (some s0)).1 = false →
      (sbmp_ep_send_message ep ty buffer length (some s0)).2.1 = some s0) ∧
    ((sbmp_ep_send_message ep ty buffer length (some s0)).1 = true →
      (sbmp_ep_send_message ep ty buffer length (some s0)).2.1 =
        some (next_session ep).1) := by
  unfold sbmp_ep_send_message
  dsimp only
  split
  · exact ⟨fun h => absurd h (by simp), fun _ => rfl⟩
  · exact ⟨fun _ => rfl, fun h => absurd h (by simp)⟩

/-- C6 witness: with a tiny peer buffer the send fails and the stored
session 7 is restored; with the default peer buffer the send succeeds
and the pointer holds the fresh session. -/
theorem c6_witness :
    ((sbmp_ep_send_message { mkEp with peer_buffer_size := 8 } 4 [1, 2, 3, 4, 5, 6]
        6 (some 7)).2.1 = some 7) ∧
    ((sbmp_ep_send_message mkEp 4 [9] 1 (some 7)).2.1 =
        some (next_session mkEp).1) :=
  ⟨(c6_send_message_transactional { mkEp with peer_buffer_size := 8 } 4
      [1, 2, 3, 4, 5, 6] 6 7).1 (by decide),
    (c6_send_message_transactional mkEp 4 [9] 1 7).2 (by decide)⟩

/-- C7: `sbmp_ep_start_response` rejects any length above
`peer_buffer_size - 3` (uint16 subtraction) without touching the
framing layer, and otherwise delegates to the datagram-start path. -/
theorem c7_start_response_bound (ep : SBMP_Endpoint) (ty length sesn : Nat) :
    (length > (ep.peer_buffer_size + 65536 - DATAGRA_HEADER_LEN) % 65536 →
      sbmp_ep_start_response ep ty length sesn = (false, ep)) ∧
    (length ≤ (ep.peer_buffer_size + 65536 - DATAGRA_HEADER_LEN) % 65536 →
      sbmp_ep_start_response ep ty length sesn =
        sbmp_dg_start ep ep.peer_pref_cksum sesn ty length) := by
  unfold sbmp_ep_start_response
  dsimp only
  constructor
  · intro h
    rw [if_pos h]
  · intro h
    rw [if_neg (by omega)]

/-- C7 witness: with `peer_buffer_size = 10` (so 7 bytes accepted), an
8-byte request is rejected with the state untouched, and a 7-byte
request goes to the datagram-start path. -/
theorem c7_witness :
    (sbmp_ep_start_response { mkEp with peer_buffer_size := 10 } 4 8 5 =
      (false, { mkEp with peer_buffer_size := 10 })) ∧
    (sbmp_ep_start_response { mkEp with peer_buffer_size := 10 } 4 7 5 =
      sbmp_dg_start { mkEp with peer_buffer_size := 10 }
        ({ mkEp with peer_buffer_size := 10 } : SBMP_Endpoint).peer_pref_cksum
        5 4 7) :=
  ⟨(c7_start_response_bound { mkEp with peer_buffer_size := 10 } 4 8 5).1
      (by decide),
    (c7_start_response_bound { mkEp with peer_buffer_size := 10 } 4 7 5).2
      (by decide)⟩

/-- The listener scan finds the first used slot with a matching
session, and finds none exactly when no used slot matches. -/
theorem findListenerIdx_spec (s : Nat) : ∀ (l : List Slot),
    (∀ i : Nat, findListenerIdx l s = some i →
      ∃ sl : Slot, l[i]? = some sl ∧ sl.used = true ∧ sl.session = s ∧
        ∀ j : Nat, j < i → ∀ sl2 : Slot, l[j]? = some sl2 →
          ¬(sl2.used = true ∧ sl2.session = s)) ∧
    (findListenerIdx l s = none ↔
      ∀ (j : Nat) (sl2 : Slot), l[j]? = some sl2 →
        ¬(sl2.used = true ∧ sl2.session = s)) := by
  intro l
  induction l with
  | nil =>
    constructor
    · intro i h
      simp [findListenerIdx] at h
    · simp [findListenerIdx]
  | cons hd tl ih =>
    by_cases hm : hd.used = true ∧ hd.session = s
    · constructor
      · intro i h
        rw [show findListenerIdx (hd :: tl) s = some 0 by
          simp [findListenerIdx, hm]] at h
        obtain rfl : (0 : Nat) = i := Option.some.inj h
        exact ⟨hd, by simp, hm.1, hm.2, fun j hj => absurd hj (by omega)⟩
      · constructor
        · intro h
          rw [show findListenerIdx (hd :: tl) s = some 0 by
            simp [findListenerIdx, hm]] at h
          exact absurd h (by simp)
        · intro hall
          exact absurd hm (hall 0 hd (by simp))
    · have heq : findListenerIdx (hd :: tl) s =
          (findListenerIdx tl s).map (· + 1) := by
        simp [findListenerIdx, hm]
      constructor
      · intro i h
        rw [heq] at h
        obtain ⟨i2, hi2, rfl⟩ := Option.map_eq_some'.mp h
        obtain ⟨sl, hsl, hu, hs, hmin⟩ := ih.1 i2 hi2
        refine ⟨sl, by simpa using hsl, hu, hs, fun j hj sl2 hj2 => ?_⟩
        cases j with
        | zero =>
          simp only [List.getElem?_cons_zero] at hj2
          obtain rfl : hd = sl2 := Option.some.inj hj2
          exact hm
        | succ k =>
          exact hmin k (by omega) sl2 (by simpa using hj2)
      · rw [heq]
        constructor
        · intro h j sl2 hj2
          cases j with
          | zero =>
            simp only [List.getElem?_cons_zero] at hj2
            obtain rfl : hd = sl2 := Option.some.inj hj2
            exact hm
          | succ k =>
            exact ih.2.mp (by simpa using h) k sl2 (by simpa using hj2)
        · intro hall
          simp only [Option.map_eq_none']
          exact ih.2.mpr fun k sl2 hk =>
            hall (k + 1) sl2 (by simpa using hk)

/-- C8: a non-handshake datagram is routed to the earliest used
listener slot whose session matches, exclusively; the default handler
runs exactly when no used slot matches; the endpoint state is
untouched. -/
theorem c8_listener_dispatch (hasCrc32 : Bool) (ep : SBMP_Endpoint)
    (dg : SBMP_Datagram)
    (hty : ¬(dg.type = SBMP_DG_HSK_START ∨ dg.type = SBMP_DG_HSK_ACCEPT
      ∨ dg.type = SBMP_DG_HSK_CONFLICT)) :
    ((handle_hsk_datagram hasCrc32 ep dg).1 = ep) ∧
    (∀ i : Nat, (handle_hsk_datagram hasCrc32 ep dg).2 = Delivery.toListener i →
      ∃ sl : Slot, ep.listeners[i]? = some sl ∧ sl.used = true ∧
        sl.session = dg.session ∧
        ∀ j : Nat, j < i → ∀ sl2 : Slot, ep.listeners[j]? = some sl2 →
          ¬(sl2.used = true ∧ sl2.session = dg.session)) ∧
    ((handle_hsk_datagram hasCrc32 ep dg).2 = Delivery.toDefault ↔
      ∀ (j : Nat) (sl2 : Slot), ep.listeners[j]? = some sl2 →
        ¬(sl2.used = true ∧ sl2.session = dg.session)) := by
  have hspec := findListenerIdx_spec dg.session ep.listeners
  unfold handle_hsk_datagram
  rw [if_neg hty]
  rcases hfind : findListenerIdx ep.listeners dg.session with _ | i
  · dsimp only
    refine ⟨rfl, fun i h => absurd h (by simp), ?_⟩
    simp only [eq_self_iff_true, true_iff]
    exact hspec.2.mp hfind
  · dsimp only
    refine ⟨rfl, fun i2 h => ?_, ?_⟩
    · obtain rfl : i = i2 := by simpa using h
      exact hspec.1 i hfind
    · constructor
      · intro h
        exact absurd h (by simp)
      · intro hall
        obtain ⟨sl, hsl, hu, hs, _⟩ := hspec.1 i hfind
        exact absurd ⟨hu, hs⟩ (hall i sl hsl)

/-- C8 witness: two slots both subscribed to session 9 plus an unused
slot; a type-7 datagram on session 9 goes to slot 0 only, and one on
session 4 goes to the default handler. -/
theorem c8_witness :
    ((handle_hsk_datagram true
      { mkEp with listeners := [⟨9, true⟩, ⟨9, true⟩, ⟨0, false⟩] }
      ⟨9, 7, []⟩).2 = Delivery.toListener 0) ∧
    ((handle_hsk_datagram true
      { mkEp with listeners := [⟨9, true⟩, ⟨9, true⟩, ⟨0, false⟩] }
      ⟨4, 7, []⟩).2 = Delivery.toDefault) ∧
    ((handle_hsk_datagram true
      { mkEp with listeners := [⟨9, true⟩, ⟨9, true⟩, ⟨0, false⟩] }
      ⟨9, 7, []⟩).1 =
      { mkEp with listeners := [⟨9, true⟩, ⟨9, true⟩, ⟨0, false⟩] }) := by
  refine ⟨by decide, by decide,
    (c8_listener_dispatch true
      { mkEp with listeners := [⟨9, true⟩, ⟨9, true⟩, ⟨0, false⟩] }
      ⟨9, 7, []⟩ (by decide)).1⟩

/-- C9: a handshake that is accepted (HSK_START while not awaiting a
reply) or acknowledged (HSK_ACCEPT on the outstanding session while
awaiting) with a payload shorter than 3 bytes still transitions to
Success while leaving `peer_pref_cksum` and `peer_buffer_size`
unchanged. -/
theorem c9_short_hsk_payload (hasCrc32 : Bool) (ep : SBMP_Endpoint)
    (dg : SBMP_Datagram)
    (hshort : dg.payload.length < 3)
    (hcase : (dg.type = SBMP_DG_HSK_START ∧
        ep.hsk_status ≠ HskStatus.AwaitReply) ∨
      (dg.type = SBMP_DG_HSK_ACCEPT ∧ ep.hsk_status = HskStatus.AwaitReply ∧
        ep.hsk_session = dg.session)) :
    ((handle_hsk_datagram hasCrc32 ep dg).1.hsk_status = HskStatus.Success) ∧
    ((handle_hsk_datagram hasCrc32 ep dg).1.peer_pref_cksum =
      ep.peer_pref_cksum) ∧
    ((handle_hsk_datagram hasCrc32 ep dg).1.peer_buffer_size =
      ep.peer_buffer_size) := by
  have hnl : ¬ 3 ≤ dg.payload.length := by omega
  rcases hcase with ⟨hty, hne⟩ | ⟨hty, hst, hses⟩
  · have hfs := hsk_accept_state_fields hasCrc32 ep dg
    have hcore := sbmp_ep_send_response_core (hsk_accept_state hasCrc32 ep dg)
      SBMP_DG_HSK_ACCEPT (populate_hsk_buf ep) HSK_PAYLOAD_LEN dg.session
    rw [handle_eq_start hasCrc32 ep dg hty]
    unfold hsk_handle_start
    rw [if_neg hne]
    refine ⟨?_, ?_, ?_⟩
    · dsimp only
      rw [hcore.2.2.2.1, hfs.1]
    · dsimp only
      rw [hcore.2.1, hfs.2.2.2.2.2.2, if_neg hnl]
    · dsimp only
      rw [hcore.2.2.1, hfs.2.2.2.2.2.1, if_neg hnl]
  · rw [handle_eq_accept hasCrc32 ep dg hty]
    unfold hsk_handle_accept
    rw [if_neg (by simp [hst, hses]),
      if_neg (show ¬ SBMP_Datagram.length dg ≥ HSK_PAYLOAD_LEN from hnl)]
    simp

/-- C9 witness: a 2-byte HSK_START payload is accepted from NotStarted,
and a 2-byte HSK_ACCEPT on the awaited session is acknowledged; both
leave the peer parameters at their defaults. -/
theorem c9_witness :
    (((handle_hsk_datagram true mkEp ⟨7, 1, [1, 2]⟩).1.hsk_status =
        HskStatus.Success) ∧
      ((handle_hsk_datagram true mkEp ⟨7, 1, [1, 2]⟩).1.peer_pref_cksum =
        mkEp.peer_pref_cksum) ∧
      ((handle_hsk_datagram true mkEp ⟨7, 1, [1, 2]⟩).1.peer_buffer_size =
        mkEp.peer_buffer_size)) ∧
    (((handle_hsk_datagram true
        { mkEp with hsk_status := HskStatus.AwaitReply, hsk_session := 7 }
        ⟨7, 2, [1, 2]⟩).1.hsk_status = HskStatus.Success) ∧
      ((handle_hsk_datagram true
        { mkEp with hsk_status := HskStatus.AwaitReply, hsk_session := 7 }
        ⟨7, 2, [1, 2]⟩).1.peer_pref_cksum =
        ({ mkEp with hsk_status := HskStatus.AwaitReply, hsk_session := 7 } :
          SBMP_Endpoint).peer_pref_cksum) ∧
      ((handle_hsk_datagram true
        { mkEp with hsk_status := HskStatus.AwaitReply, hsk_session := 7 }
        ⟨7, 2, [1, 2]⟩).1.peer_buffer_size =
        ({ mkEp with hsk_status := HskStatus.AwaitReply, hsk_session := 7 } :
          SBMP_Endpoint).peer_buffer_size)) :=
  ⟨c9_short_hsk_payload true mkEp ⟨7, 1, [1, 2]⟩ (by decide)
      (Or.inl ⟨rfl, by decide⟩),
    c9_short_hsk_payload true
      { mkEp with hsk_status := HskStatus.AwaitReply, hsk_session := 7 }
      ⟨7, 2, [1, 2]⟩ (by decide) (Or.inr ⟨rfl, rfl, rfl⟩)⟩

end SBMP
